import Mathlib

/-!
Shallow embedding of the SlicerDentalModelSeg repository
(src/CrownSegmentation/CrownSegmentation.py and
src/CrownSegmentationcli/CrownSegmentationcli.py).

Strings are modelled as `List Char`.  External library calls
(os.path.isdir, os.path.isfile, os.path.splitext, os.path.join, os.walk,
platform.system, the SlicerConda environment manager, Qt dialogs and
QSettings) are modelled as parameters of an environment record; the code
of this repository itself is translated directly.  Side effects (dialogs,
thread launches, file creation and removal, QSettings writes) are
recorded in an action trace.
-/

/-- Python str.isspace on the ASCII whitespace characters stripped by str.strip. -/
def pyIsSpace (c : Char) : Bool :=
  c == ' ' || c == '\t' || c == '\n' || c == '\r' || c == Char.ofNat 11 || c == Char.ofNat 12

/-- Python windows_path.strip(): remove leading and trailing whitespace. -/
def pyStrip (l : List Char) : List Char :=
  ((l.dropWhile pyIsSpace).reverse.dropWhile pyIsSpace).reverse

/-- One character of Python path.replace applied charwise: backslash becomes slash. -/
def slashify (c : Char) : Char := if c == '\\' then '/' else c

/-- Translation of windows_to_linux_path (CrownSegmentation.py lines 879-891 and
CrownSegmentationcli.py lines 43-55, textually identical in the source):
strip whitespace, replace every backslash by a slash, and if the result
contains a colon, split at the first colon, lower-case the part before it
and prepend "/mnt/". -/
def windows_to_linux_path (l : List Char) : List Char :=
  let path := (pyStrip l).map slashify
  if path.any (fun c => c == ':') then
    ("/mnt/".toList) ++
      (((path.takeWhile (fun c => c != ':')).map Char.toLower) ++
        ((path.dropWhile (fun c => c != ':')).tail))
  else path

/-- A string begins with a drive-letter colon prefix (a single letter then a colon). -/
def beginsWithDriveColon : List Char → Bool
  | c :: d :: _ => c.isAlpha && d == ':'
  | _ => false

/-! ### CSV enumeration (create_csv, CrownSegmentation.py lines 909-934) -/

/-- Python file.endswith(".vtk") or file.endswith(".stl"). -/
def isSurfFile (f : List Char) : Bool :=
  (".vtk".toList).isSuffixOf f || (".stl".toList).isSuffixOf f

/-- The data row create_csv writes for one file: on a non-Windows host the plain
os.path.join of root and file name, on Windows the joined path is normalised
(os.path.normpath, modelled by the parameter norm) and passed through
windows_to_linux_path.  The parameters join and norm model os.path.join and
os.path.normpath of the host Python library. -/
def rowFor (sys : List Char) (join : List Char → List Char → List Char)
    (norm : List Char → List Char) (root f : List Char) : List Char :=
  if !(sys == "Windows".toList) then join root f
  else windows_to_linux_path (norm (join root f))

/-- Translation of the row sequence written by create_csv: header "surf", then
the two nested loops over os.walk output (walk is the list of pairs of a root
directory and the file names it holds, over the directory and all of its
subdirectories), appending a row for every file ending in .vtk or .stl. -/
def create_csv_rows (sys : List Char) (join : List Char → List Char → List Char)
    (norm : List Char → List Char)
    (walk : List (List Char × List (List Char))) : List (List Char) :=
  walk.foldl
    (fun acc e =>
      e.2.foldl
        (fun acc2 f => if isSurfFile f then acc2 ++ [rowFor sys join norm e.1 f] else acc2)
        acc)
    ["surf".toList]

/-! ### Command construction -/

/-- Concatenation of the segments of a Python f-string. -/
def catList : List (List Char) → List Char
  | [] => []
  | x :: rest => x ++ catList rest

/-- Python f-string rendering of a bool: str(True) is "True". -/
def pyBoolStr (b : Bool) : List Char := if b then ("True".toList) else ("False".toList)

/-- Python f-string rendering of an int. -/
def pyNatStr (n : Nat) : List Char := (toString n).toList

/-- Python f-string rendering of an optional string: None renders as "None". -/
def pyOptStr : Option (List Char) → List Char
  | none => ("None".toList)
  | some v => v

/-- The model variable computed before each command: None when the model path is
the sentinel "latest", otherwise the path itself (lines 711-713, 821-823, and
cli lines 19-26). -/
def modelOf (m : List Char) : Option (List Char) :=
  if m == "latest".toList then none else some m

/-- Translation of the f-string command of the Linux branch
(CrownSegmentation.py line 715). -/
def buildCommandLinux (vtk stl csv out : List Char) (ow : Bool) (modelArg : List Char)
    (crown : Bool) (arrayName : List Char) (fdi : Nat) (suffix folder : List Char) :
    List Char :=
  catList [("dentalmodelseg --vtk ".toList), vtk,
    (" --stl ".toList), stl,
    (" --csv ".toList), csv,
    (" --out ".toList), out,
    (" --overwrite ".toList), pyBoolStr ow,
    (" --model ".toList), pyOptStr (modelOf modelArg),
    (" --crown_segmentation ".toList), pyBoolStr crown,
    (" --array_name ".toList), arrayName,
    (" --fdi ".toList), pyNatStr fdi,
    (" --suffix ".toList), suffix,
    (" --vtk_folder ".toList), folder]

/-- Translation of the f-string command of the Windows (WSL) branch
(CrownSegmentation.py line 827): every path value is passed through
windows_to_linux_path, the values are wrapped in escaped double quotes,
and the model is translated unless it is the "latest" sentinel. -/
def buildCommandWindows (vtk stl csv out : List Char) (ow : Bool) (modelArg : List Char)
    (crown : Bool) (arrayName : List Char) (fdi : Nat) (suffix folder : List Char) :
    List Char :=
  catList [("dentalmodelseg --vtk \"".toList), windows_to_linux_path vtk,
    ("\" --stl \"".toList), windows_to_linux_path stl,
    ("\" --csv \"".toList), windows_to_linux_path csv,
    ("\" --out \"".toList), windows_to_linux_path out,
    ("\" --overwrite \"".toList), pyBoolStr ow,
    ("\" --model \"".toList), pyOptStr ((modelOf modelArg).map windows_to_linux_path),
    ("\" --crown_segmentation \"".toList), pyBoolStr crown,
    ("\" --array_name \"".toList), arrayName,
    ("\" --fdi \"".toList), pyNatStr fdi,
    ("\" --suffix \"".toList), suffix,
    ("\" --vtk_folder \"".toList), windows_to_linux_path folder,
    ("\"".toList)]

/-- Translation of the f-string command of the stand-alone cli script
(CrownSegmentationcli.py line 33, reached on its Windows branch): all eleven
argparse values are strings; paths are passed through windows_to_linux_path
and the model is None when "latest", else translated. -/
def buildCommandCli (vtk stl csv out ow modelArg crown arrayName fdi suffix folder : List Char) :
    List Char :=
  catList [("dentalmodelseg --vtk \"".toList), windows_to_linux_path vtk,
    ("\" --stl \"".toList), windows_to_linux_path stl,
    ("\" --csv \"".toList), windows_to_linux_path csv,
    ("\" --out \"".toList), windows_to_linux_path out,
    ("\" --overwrite \"".toList), ow,
    ("\" --model \"".toList), pyOptStr ((modelOf modelArg).map windows_to_linux_path),
    ("\" --crown_segmentation \"".toList), crown,
    ("\" --array_name \"".toList), arrayName,
    ("\" --fdi \"".toList), fdi,
    ("\" --suffix \"".toList), suffix,
    ("\" --vtk_folder \"".toList), windows_to_linux_path folder,
    ("\"".toList)]

/-- Spec-side rendering of a flag list: the external command name followed, for
each pair, by a space, the flag, a space and the value. -/
def renderArgsPlain : List (List Char × List Char) → List Char
  | [] => []
  | p :: rest => (" ".toList) ++ (p.1 ++ ((" ".toList) ++ (p.2 ++ renderArgsPlain rest)))

/-- Spec-side plain command rendering. -/
def renderPlain (ps : List (List Char × List Char)) : List Char :=
  ("dentalmodelseg".toList) ++ renderArgsPlain ps

/-- Spec-side rendering with each value wrapped in double quotes. -/
def renderArgsQuoted : List (List Char × List Char) → List Char
  | [] => []
  | p :: rest =>
      (" ".toList) ++ (p.1 ++ ((" \"".toList) ++ (p.2 ++ (("\"".toList) ++ renderArgsQuoted rest))))

/-- Spec-side quoted command rendering. -/
def renderQuoted (ps : List (List Char × List Char)) : List Char :=
  ("dentalmodelseg".toList) ++ renderArgsQuoted ps

/-! ### Widget state, environment and the apply-changes handler -/

inductive InputChoice where
  | VTK
  | MRML_NODE
  | FOLDER
deriving DecidableEq

def InputChoice.isVTK : InputChoice → Bool
  | InputChoice.VTK => true
  | _ => false

def InputChoice.isMRML : InputChoice → Bool
  | InputChoice.MRML_NODE => true
  | _ => false

/-- The widget fields that onApplyChangesButton reads or writes. -/
structure WState where
  input : List Char
  outputFolder : List Char
  output : List Char
  model : List Char
  inputChoice : InputChoice
  mrmlPresent : Bool
  surfaceLineEdit : List Char
  outputLineEdit : List Char
  outputFileLineEdit : List Char
  modelLineEdit : List Char
  overwriteChecked : Bool
  sepOutputs : Bool
  predictedId : List Char
  chooseFDI : Nat
deriving DecidableEq

/-- External collaborators of the handler: the host file system, platform and
the SlicerConda environment manager, plus the os.path.join function used for
the csv file path. -/
structure SegEnv where
  isdir : List Char → Bool
  isfile : List Char → Bool
  splitext1 : List Char → List Char
  system : List Char
  condaPath : List Char
  condaTestEnv : Bool
  userResponse : Bool
  wslAvailable : Bool
  wslLibsOk : Bool
  condaVersionHasError : Bool
  condaTestEnvWsl : Bool
  userResponseWsl : Bool
  moduleFolder : List Char
  join : List Char → List Char → List Char
  csvPreexists : Bool

inductive ThreadTarget where
  | condaCreateEnv
  | condaInstallPytorch
  | condaRunCommand (cmd : List Char)
deriving DecidableEq

/-- Observable side effects of the widget code, in program order.
showModalError is a QMessageBox shown with the blocking exec_ call. -/
inductive Act where
  | showModalError (text : List Char)
  | showInfo
  | askYesNo
  | startThread (t : ThreadTarget)
  | condaVersionCheck
  | createCsv (path : List Char)
  | removeFile (path : List Char)
  | setSetting (key value : List Char)
  | pythonError
deriving DecidableEq

/-- ui.outputLineEdit.setText also fires the connected onEditOutputLine slot,
which copies the text into outputFolder and output. -/
def setOutputLineEdit (s : WState) (v : List Char) : WState :=
  { s with outputLineEdit := v, outputFolder := v, output := v ++ s.outputFileLineEdit }

/-- ui.modelLineEdit.setText also fires onEditModelLine, copying into model. -/
def setModelLineEdit (s : WState) (v : List Char) : WState :=
  { s with modelLineEdit := v, model := v }

/-- ui.surfaceLineEdit.setText also fires onEditSurfaceLine, copying into input.
The input field is only overwritten when the surface line is the active input. -/
def setSurfaceLineEdit (s : WState) (v : List Char) : WState :=
  { s with surfaceLineEdit := v,
           input := if s.inputChoice.isVTK then v else s.input }

/-- os.path.join(dirname(abspath(file)), "list_file.csv"): where create_csv
writes and the handler later deletes the transient csv. -/
def csvPath (env : SegEnv) : List Char := env.join env.moduleFolder ("list_file.csv".toList)

/-- The input parameters computed at the top of the launch branch
(CrownSegmentation.py lines 642-655): all four default to "None"; a .vtk or
.stl file fills the matching one, a directory fills csv (via create_csv) and
vtk_folder. -/
structure InParams where
  vtk : List Char
  stl : List Char
  csv : List Char
  folder : List Char
deriving DecidableEq

def inputParams (env : SegEnv) (s : WState) : InParams :=
  let isF := env.isfile s.input
  let ext := env.splitext1 s.input
  let folderMode := !isF && env.isdir s.input
  { vtk := if isF && ext == (".vtk".toList) then s.input else ("None".toList)
    stl := if isF && ext == (".stl".toList) then s.input else ("None".toList)
    csv := if folderMode then csvPath env else ("None".toList)
    folder := if folderMode then s.input else ("None".toList) }

/-- The main (gates passed) part of onApplyChangesButton
(CrownSegmentation.py lines 640-857).  The busy wait loops that pump the Qt
event queue and update the elapsed-time label are pure UI and add nothing to
the trace.  The csv deletion at the end of each launch runs only when
os.path.exists(csv_file) holds, that is when create_csv just wrote it in
folder mode or when a file was already there from an earlier run. -/
def mainBranch (env : SegEnv) (s : WState) : WState × List Act :=
  let isF := env.isfile s.input
  let folderMode := !isF && env.isdir s.input
  let p := inputParams env s
  let createActs := if folderMode then [Act.createCsv (csvPath env)] else []
  if !(env.system == "Windows".toList) then
    if env.condaPath == "None".toList then
      (s, createActs ++ [Act.showInfo])
    else
      let pre : List Act × Bool :=
        if !env.condaTestEnv then
          if env.userResponse then
            ([Act.askYesNo, Act.startThread ThreadTarget.condaCreateEnv,
              Act.startThread ThreadTarget.condaInstallPytorch], true)
          else ([Act.askYesNo], false)
        else ([], true)
      if pre.2 then
        let cmd := buildCommandLinux p.vtk p.stl p.csv s.outputLineEdit s.overwriteChecked
          s.model s.sepOutputs s.predictedId s.chooseFDI s.outputFileLineEdit p.folder
        let delActs := if folderMode || env.csvPreexists
          then [Act.removeFile (csvPath env)] else []
        (s, createActs ++ pre.1 ++ [Act.startThread (ThreadTarget.condaRunCommand cmd)]
              ++ delActs)
      else (s, createActs ++ pre.1)
  else
    let step1 : List Act × Bool :=
      if env.wslAvailable then
        if !env.wslLibsOk then ([Act.showInfo], false) else ([], true)
      else ([Act.showInfo], false)
    let step2 : List Act × Bool :=
      if step1.2 then
        if env.condaVersionHasError then ([Act.condaVersionCheck, Act.showInfo], false)
        else ([Act.condaVersionCheck], true)
      else ([], false)
    let step3 : List Act × Bool :=
      if step2.2 then
        if !env.condaTestEnvWsl then
          if env.userResponseWsl then
            ([Act.askYesNo, Act.startThread ThreadTarget.condaCreateEnv,
              Act.startThread ThreadTarget.condaInstallPytorch], true)
          else ([Act.askYesNo], false)
        else ([], true)
      else ([], false)
    if step3.2 then
      let cmd := buildCommandWindows p.vtk p.stl p.csv s.outputLineEdit s.overwriteChecked
        s.model s.sepOutputs s.predictedId s.chooseFDI s.outputFileLineEdit p.folder
      let delActs := if folderMode || env.csvPreexists
        then [Act.removeFile (csvPath env)] else []
      (s, createActs ++ step1.1 ++ step2.1 ++ step3.1
            ++ [Act.startThread (ThreadTarget.condaRunCommand cmd)] ++ delActs)
    else (s, createActs ++ step1.1 ++ step2.1 ++ step3.1)

/-- Translation of onApplyChangesButton (CrownSegmentation.py lines 593-857).
The first gate refuses when the output folder is not a directory or the model
is neither a file nor "latest"; the second gate refuses when no input is
selected.  In the second gate the VTK branch reads the attribute surfaceFile,
which is never assigned anywhere in the class, so Python raises an
AttributeError there (modelled by Act.pythonError). -/
def onApplyChangesButton (env : SegEnv) (s : WState) : WState × List Act :=
  if !(env.isdir s.outputFolder && (env.isfile s.model || s.model == "latest".toList)) then
    if !(env.isdir s.outputFolder) then
      (setOutputLineEdit s [], [Act.showModalError ("Output directory : \nIncorrect path.".toList)])
    else if !(env.isfile s.model) && !(s.model == "latest".toList) then
      (setModelLineEdit s [], [Act.showModalError ("Model : \nIncorrect path.".toList)])
    else
      (s, [Act.showModalError ("Unknown error.".toList)])
  else if !((s.inputChoice.isMRML && s.mrmlPresent) || env.isfile s.input || env.isdir s.input) then
    if s.inputChoice.isVTK then
      (s, [Act.pythonError])
    else if s.inputChoice.isMRML && !s.mrmlPresent then
      (setSurfaceLineEdit s [],
        [Act.showModalError ("Input surface : \nPlease select a MRML node.".toList)])
    else
      (s, [Act.showModalError ("Unknown error.".toList)])
  else
    mainBranch env s

/-- A trace that is exactly one blocking modal error dialog and nothing else. -/
def isModalErrorOnly : List Act → Bool
  | [Act.showModalError _] => true
  | _ => false

def isLaunchAct : Act → Bool
  | Act.startThread (ThreadTarget.condaRunCommand _) => true
  | _ => false

def isSetSettingAct : Act → Bool
  | Act.setSetting _ _ => true
  | _ => false

def isCreateCsvAct : Act → Bool
  | Act.createCsv _ => true
  | _ => false

def isRemoveFileAct : Act → Bool
  | Act.removeFile _ => true
  | _ => false

/-- Whether list_file.csv is on disk once the handler has returned: it is there
when it preexisted or was created during the run, unless the run removed it. -/
def csvExistsAfter (env : SegEnv) (tr : List Act) : Bool :=
  (env.csvPreexists || tr.any isCreateCsvAct) && !(tr.any isRemoveFileAct)

/-- Translation of onCBchecked (lines 356-361), the only place in the module
that writes a process-wide setting: it stores the welcome-dialog flag
TeethSegVisited, never TeethSeg_ModelPath. -/
def onCBchecked (checkState : Nat) : List Act :=
  if checkState == 0 then [Act.setSetting ("TeethSegVisited".toList) ("None".toList)]
  else [Act.setSetting ("TeethSegVisited".toList) ("1".toList)]

/-- Translation of the model-path initialisation in setup (lines 209-212):
when the stored TeethSeg_ModelPath setting is non-null its value is written
into the model line edit (whose changed signal copies it into model), then
model is set from the line edit text. -/
def setupModelLine (stored : Option (List Char)) (s : WState) : WState :=
  let s1 := match stored with
    | some v => setModelLineEdit s v
    | none => s
  { s1 with model := s1.modelLineEdit }

/-! ### Progress poller (onProcessUpdate, CrownSegmentation.py lines 960-1021) -/

/-- The widget state onProcessUpdate touches. -/
structure PState where
  previous_time : Rat
  start_time : Rat
  elapsedShown : Rat
  progressBar : Nat
  applyEnabled : Bool
  resetEnabled : Bool
  cancelEnabled : Bool
  progressBarEnabled : Bool
  progressBarHidden : Bool
  progressLabelHidden : Bool
  doneLabelHidden : Bool
deriving DecidableEq

/-- Translation of onProcessUpdate.  The log-file block that would increment a
counter and set the progress bar from the modification time of process.log
(lines 970-981) is commented out in the source, so the logMtime argument is
never consulted and the progress bar value is never written; only the
elapsed-time label (updated when more than 0.3 s have passed) and the
completion and error handling remain. -/
def onProcessUpdate (now logMtime : Rat) (completed errors : Bool)
    (errorText : List Char) (st : PState) : PState × List Act :=
  let st1 := if now - st.previous_time > 0.3 then
      { st with previous_time := now, elapsedShown := now - st.start_time }
    else st
  if completed then
    let st2 := { st1 with
      applyEnabled := true
      resetEnabled := true
      cancelEnabled := false
      progressBarEnabled := false
      progressBarHidden := true
      progressLabelHidden := true }
    if errors then (st2, [Act.showModalError errorText]) else (st2, [])
  else
    ({ st1 with progressLabelHidden := true, doneLabelHidden := false, applyEnabled := true },
      [])

/-- The value the spec formula assigns after the n-th observed log
modification: (n-1)/nbFiles*100, set to 99 whenever that reaches 100. -/
def claimedProgress (n nbFiles : Nat) : Rat :=
  if ((n : Rat) - 1) / (nbFiles : Rat) * 100 ≥ 100 then 99
  else ((n : Rat) - 1) / (nbFiles : Rat) * 100

/-! ### Shared concrete defaults used by witnesses and counterexamples -/

def defaultSegEnv : SegEnv :=
  { isdir := fun _ => false
    isfile := fun _ => false
    splitext1 := fun _ => []
    system := "Linux".toList
    condaPath := "None".toList
    condaTestEnv := false
    userResponse := false
    wslAvailable := false
    wslLibsOk := false
    condaVersionHasError := false
    condaTestEnvWsl := false
    userResponseWsl := false
    moduleFolder := "/mod".toList
    join := fun a b => (a ++ ("/".toList)) ++ b
    csvPreexists := false }

def defaultWState : WState :=
  { input := []
    outputFolder := []
    output := []
    model := []
    inputChoice := InputChoice.VTK
    mrmlPresent := false
    surfaceLineEdit := []
    outputLineEdit := []
    outputFileLineEdit := []
    modelLineEdit := []
    overwriteChecked := false
    sepOutputs := false
    predictedId := []
    chooseFDI := 0 }

/-! ### C2 and C3: the path translator -/

/-- Claim C2: for every input whose stripped form is a drive letter followed by
a colon and a remainder, windows_to_linux_path strips the whitespace, turns
every backslash into a slash, and rewrites the drive prefix to /mnt/ with the
drive letter lower-cased, so that C:\a\b yields /mnt/c/a/b. -/
theorem C2_drive_letter_rewrite (s : List Char) (c : Char) (rest : List Char)
    (hc : c.isAlpha = true) (hs : pyStrip s = c :: ':' :: rest) :
    windows_to_linux_path s = ("/mnt/".toList) ++ (c.toLower :: rest.map slashify) := by
  have p1 : ¬(c = '\\') := by intro h; rw [h] at hc; exact absurd hc (by decide)
  have p2 : ¬(c = ':') := by intro h; rw [h] at hc; exact absurd hc (by decide)
  simp [windows_to_linux_path, hs, slashify, p1, p2,
    List.takeWhile_cons, List.dropWhile_cons, bne]

/-- Witness for C2 at the spec example, once bare and once with surrounding
whitespace. -/
theorem C2_witness :
    windows_to_linux_path ("C:\\a\\b".toList) = ("/mnt/c/a/b".toList) ∧
    windows_to_linux_path ("  C:\\a\\b ".toList) = ("/mnt/c/a/b".toList) := by
  constructor
  · have h := C2_drive_letter_rewrite ("C:\\a\\b".toList) 'C' ("\\a\\b".toList)
      (by decide) (by decide)
    exact h.trans (by decide)
  · have h := C2_drive_letter_rewrite ("  C:\\a\\b ".toList) 'C' ("\\a\\b".toList)
      (by decide) (by decide)
    exact h.trans (by decide)

/-- Counterexample to C3 as stated: the input ab:c does not begin with a
drive-letter colon prefix, yet the translator does not return it with only
backslash substitution; it introduces the /mnt/ prefix, because the code
checks for a colon anywhere, not for a drive-letter prefix. -/
theorem C3_counterexample :
    beginsWithDriveColon ("ab:c".toList) = false ∧
    windows_to_linux_path ("ab:c".toList) = ("/mnt/abc".toList) ∧
    ¬(windows_to_linux_path ("ab:c".toList) = (pyStrip ("ab:c".toList)).map slashify) := by
  decide

/-- Claim C3 (amended): every input string whose stripped form contains no
colon at all is returned unchanged except for backslash-to-slash substitution
and whitespace removal, and no /mnt/ prefix is introduced. -/
theorem C3_no_colon_passthrough (s : List Char)
    (h : (pyStrip s).any (fun c => c == ':') = false) :
    windows_to_linux_path s = (pyStrip s).map slashify := by
  have hfun : ((fun c => c == ':') ∘ slashify) = (fun c : Char => c == ':') := by
    funext c
    simp only [Function.comp_apply, slashify]
    cases hb : c == '\\'
    · simp
    · have hcc : c = '\\' := eq_of_beq hb
      subst hcc
      decide
  have hmap : ((pyStrip s).map slashify).any (fun c => c == ':') = false := by
    rw [List.any_map, hfun, h]
  simp [windows_to_linux_path, hmap]

/-- Witness for C3 (amended) on a colon-free path with a backslash and a space. -/
theorem C3_witness :
    windows_to_linux_path ("a\\b c".toList) = (pyStrip ("a\\b c".toList)).map slashify ∧
    windows_to_linux_path ("a\\b c".toList) = ("a/b c".toList) := by
  have h := C3_no_colon_passthrough ("a\\b c".toList) (by decide)
  exact ⟨h, h.trans (by decide)⟩

/-! ### C4 and C5: the csv enumeration -/

theorem csv_inner_loop (sys : List Char) (join : List Char → List Char → List Char)
    (norm : List Char → List Char) (root : List Char) (files : List (List Char))
    (acc : List (List Char)) :
    files.foldl
        (fun acc2 f => if isSurfFile f then acc2 ++ [rowFor sys join norm root f] else acc2) acc
      = acc ++ (files.filter isSurfFile).map (rowFor sys join norm root) := by
  induction files generalizing acc with
  | nil => simp
  | cons f rest ih =>
      cases hf : isSurfFile f
      · simp [List.foldl_cons, hf, List.filter_cons, ih]
      · simp [List.foldl_cons, hf, List.filter_cons, ih]

theorem csv_outer_loop (sys : List Char) (join : List Char → List Char → List Char)
    (norm : List Char → List Char) (walk : List (List Char × List (List Char)))
    (acc : List (List Char)) :
    walk.foldl
        (fun acc e =>
          e.2.foldl
            (fun acc2 f => if isSurfFile f then acc2 ++ [rowFor sys join norm e.1 f] else acc2)
            acc) acc
      = acc ++ walk.flatMap (fun e => (e.2.filter isSurfFile).map (rowFor sys join norm e.1)) := by
  induction walk generalizing acc with
  | nil => simp
  | cons e rest ih =>
      simp only [List.foldl_cons]
      rw [csv_inner_loop, ih, List.flatMap_cons, List.append_assoc]

/-- Claim C4: the csv produced by create_csv is the header surf followed by
exactly one data row per file (over the directory and its subdirectories, as
enumerated by os.walk) whose name ends in .vtk or .stl, and no row for any
other file; in particular a directory holding a.vtk, b.stl and c.txt gives
exactly the header plus the two rows for a.vtk and b.stl. -/
theorem C4_create_csv_characterisation (sys : List Char)
    (join : List Char → List Char → List Char) (norm : List Char → List Char)
    (walk : List (List Char × List (List Char))) :
    create_csv_rows sys join norm walk
      = ("surf".toList) ::
          walk.flatMap (fun e => (e.2.filter isSurfFile).map (rowFor sys join norm e.1)) ∧
    create_csv_rows sys join norm
        [(("d".toList), [("a.vtk".toList), ("b.stl".toList), ("c.txt".toList)])]
      = [("surf".toList), rowFor sys join norm ("d".toList) ("a.vtk".toList),
          rowFor sys join norm ("d".toList) ("b.stl".toList)] := by
  constructor
  · have h := csv_outer_loop sys join norm walk [("surf".toList)]
    simpa [create_csv_rows] using h
  · rfl

/-- Counterexample to C5 as stated: Darwin is a non-Linux host platform, yet
create_csv writes the row untranslated there (the code translates only when
platform.system() equals Windows), and the untranslated row differs from the
translated one. -/
theorem C5_counterexample :
    ¬(("Darwin".toList) = ("Linux".toList)) ∧
    create_csv_rows ("Darwin".toList) (fun a b => (a ++ ("/".toList)) ++ b) id
        [(("C:\\d".toList), [("a.vtk".toList)])]
      = [("surf".toList), ("C:\\d/a.vtk".toList)] ∧
    ¬(("C:\\d/a.vtk".toList)
        = windows_to_linux_path (id ((("C:\\d".toList) ++ ("/".toList)) ++ ("a.vtk".toList)))) := by
  decide

/-- Claim C5 (amended): a data row is passed through windows_to_linux_path
(after os.path.normpath) exactly on a Windows host; on every non-Windows host,
Linux or otherwise, the os.path.join of root and file name is written
untranslated. -/
theorem C5_translate_only_on_windows (sys : List Char)
    (join : List Char → List Char → List Char) (norm : List Char → List Char)
    (root f : List Char) :
    (sys = "Windows".toList →
      rowFor sys join norm root f = windows_to_linux_path (norm (join root f))) ∧
    (¬(sys = "Windows".toList) → rowFor sys join norm root f = join root f) ∧
    (isSurfFile f = true →
      create_csv_rows sys join norm [(root, [f])]
        = [("surf".toList), rowFor sys join norm root f]) := by
  refine ⟨?_, ?_, ?_⟩
  · intro h; subst h; simp [rowFor]
  · intro h
    have hb : (sys == "Windows".toList) = false := beq_eq_false_iff_ne.mpr h
    simp only [rowFor]
    rw [hb]
    rfl
  · intro hf; simp [create_csv_rows, hf]

/-- Witness for C5 (amended) on both platform branches. -/
theorem C5_witness :
    rowFor ("Windows".toList) (fun a b => (a ++ ("/".toList)) ++ b) id
        ("C:\\d".toList) ("a.vtk".toList)
      = windows_to_linux_path
          (id ((fun a b => (a ++ ("/".toList)) ++ b) ("C:\\d".toList) ("a.vtk".toList))) ∧
    rowFor ("Linux".toList) (fun a b => (a ++ ("/".toList)) ++ b) id
        ("d".toList) ("a.vtk".toList)
      = (fun a b => (a ++ ("/".toList)) ++ b) ("d".toList) ("a.vtk".toList) := by
  constructor
  · exact (C5_translate_only_on_windows ("Windows".toList)
      (fun a b => (a ++ ("/".toList)) ++ b) id ("C:\\d".toList) ("a.vtk".toList)).1 rfl
  · exact (C5_translate_only_on_windows ("Linux".toList)
      (fun a b => (a ++ ("/".toList)) ++ b) id ("d".toList) ("a.vtk".toList)).2.1 (by decide)

/-! ### C1 and C10: the precondition gate of onApplyChangesButton -/

/-- Claim C1: whenever the output directory is not an existing directory, or
the model path is neither an existing file nor the literal string latest,
onApplyChangesButton performs exactly one blocking modal error dialog and
returns: its trace holds no thread launch, no external command, no dialog
other than the single error box, and no file side effect. -/
theorem C1_precondition_gate (env : SegEnv) (s : WState)
    (h : env.isdir s.outputFolder = false ∨
         (env.isfile s.model = false ∧ (s.model == "latest".toList) = false)) :
    isModalErrorOnly (onApplyChangesButton env s).2 = true := by
  rcases h with h | ⟨h1, h2⟩
  · simp [onApplyChangesButton, h, isModalErrorOnly]
  · have p2 : ¬(s.model = ['l', 'a', 't', 'e', 's', 't']) := beq_eq_false_iff_ne.mp h2
    cases hd : env.isdir s.outputFolder
    · simp [onApplyChangesButton, hd, isModalErrorOnly]
    · simp [onApplyChangesButton, hd, h1, p2, isModalErrorOnly]

/-- Witness for C1: refused run with a missing output directory. -/
theorem C1_witness :
    isModalErrorOnly (onApplyChangesButton defaultSegEnv defaultWState).2 = true :=
  C1_precondition_gate defaultSegEnv defaultWState (Or.inl rfl)

/-- Counterexample to C10 as stated: when the output directory and the model
path are both invalid, the handler clears only the output line edit; the model
line edit keeps its rejected text "m" instead of being set to the empty
string, because the model branch sits behind an elif. -/
theorem C10_counterexample :
    defaultSegEnv.isfile ("m".toList) = false ∧
    ¬(("m".toList) = ("latest".toList)) ∧
    defaultSegEnv.isdir defaultWState.outputFolder = false ∧
    (onApplyChangesButton defaultSegEnv
        { defaultWState with model := ("m".toList), modelLineEdit := ("m".toList) }).1.modelLineEdit
      = ("m".toList) ∧
    ¬(("m".toList) = ([] : List Char)) := by
  decide

/-- Claim C10 (amended): the gate clears the field of the first failing check:
the output line edit is cleared (and the model line edit kept) whenever the
output directory does not exist, and the model line edit is cleared only when
the output directory exists and the model path is neither a file nor latest. -/
theorem C10_first_failing_field_cleared (env : SegEnv) (s : WState) :
    (env.isdir s.outputFolder = false →
      (onApplyChangesButton env s).1.outputLineEdit = [] ∧
      (onApplyChangesButton env s).1.modelLineEdit = s.modelLineEdit) ∧
    (env.isdir s.outputFolder = true → env.isfile s.model = false →
      (s.model == "latest".toList) = false →
      (onApplyChangesButton env s).1.modelLineEdit = []) := by
  constructor
  · intro h
    constructor
    · simp [onApplyChangesButton, h, setOutputLineEdit]
    · simp [onApplyChangesButton, h, setOutputLineEdit]
  · intro hd h1 h2
    have p2 : ¬(s.model = ['l', 'a', 't', 'e', 's', 't']) := beq_eq_false_iff_ne.mp h2
    simp [onApplyChangesButton, hd, h1, p2, setModelLineEdit]

/-- Witness for C10 (amended) on both clearing branches. -/
theorem C10_witness :
    (onApplyChangesButton defaultSegEnv defaultWState).1.outputLineEdit = ([] : List Char) ∧
    (onApplyChangesButton { defaultSegEnv with isdir := fun _ => true }
        { defaultWState with model := ("m".toList), modelLineEdit := ("m".toList) }).1.modelLineEdit
      = ([] : List Char) := by
  constructor
  · exact ((C10_first_failing_field_cleared defaultSegEnv defaultWState).1 rfl).1
  · exact (C10_first_failing_field_cleared { defaultSegEnv with isdir := fun _ => true }
      { defaultWState with model := ("m".toList), modelLineEdit := ("m".toList) }).2
      rfl rfl (by decide)

/-! ### C6: the dentalmodelseg command surface -/

set_option maxRecDepth 8000 in
/-- Claim C6: every dentalmodelseg command line the repository constructs (the
Linux branch, the Windows WSL branch, and the stand-alone cli script) carries
exactly the eleven parameters vtk, stl, csv, out, overwrite, model,
crown_segmentation, array_name, fdi, suffix, vtk_folder, in that order, each
rendered as a string, and the string None stands for every parameter that was
not provided: the input-mode values not matching the selected input and the
model when latest was chosen. -/
theorem C6_command_surface
    (vtk stl csv out : List Char) (ow : Bool) (modelArg : List Char) (crown : Bool)
    (arrayName : List Char) (fdi : Nat) (suffix folder : List Char)
    (cvtk cstl ccsv cout cow cmodel ccrown carr cfdi csuf cfold : List Char)
    (env : SegEnv) (s : WState) :
    buildCommandLinux vtk stl csv out ow modelArg crown arrayName fdi suffix folder
      = renderPlain
          [(("--vtk".toList), vtk), (("--stl".toList), stl), (("--csv".toList), csv),
           (("--out".toList), out), (("--overwrite".toList), pyBoolStr ow),
           (("--model".toList), pyOptStr (modelOf modelArg)),
           (("--crown_segmentation".toList), pyBoolStr crown),
           (("--array_name".toList), arrayName), (("--fdi".toList), pyNatStr fdi),
           (("--suffix".toList), suffix), (("--vtk_folder".toList), folder)] ∧
    buildCommandWindows vtk stl csv out ow modelArg crown arrayName fdi suffix folder
      = renderQuoted
          [(("--vtk".toList), windows_to_linux_path vtk),
           (("--stl".toList), windows_to_linux_path stl),
           (("--csv".toList), windows_to_linux_path csv),
           (("--out".toList), windows_to_linux_path out),
           (("--overwrite".toList), pyBoolStr ow),
           (("--model".toList), pyOptStr ((modelOf modelArg).map windows_to_linux_path)),
           (("--crown_segmentation".toList), pyBoolStr crown),
           (("--array_name".toList), arrayName), (("--fdi".toList), pyNatStr fdi),
           (("--suffix".toList), suffix),
           (("--vtk_folder".toList), windows_to_linux_path folder)] ∧
    buildCommandCli cvtk cstl ccsv cout cow cmodel ccrown carr cfdi csuf cfold
      = renderQuoted
          [(("--vtk".toList), windows_to_linux_path cvtk),
           (("--stl".toList), windows_to_linux_path cstl),
           (("--csv".toList), windows_to_linux_path ccsv),
           (("--out".toList), windows_to_linux_path cout),
           (("--overwrite".toList), cow),
           (("--model".toList), pyOptStr ((modelOf cmodel).map windows_to_linux_path)),
           (("--crown_segmentation".toList), ccrown),
           (("--array_name".toList), carr), (("--fdi".toList), cfdi),
           (("--suffix".toList), csuf),
           (("--vtk_folder".toList), windows_to_linux_path cfold)] ∧
    (modelArg = "latest".toList →
      pyOptStr (modelOf modelArg) = ("None".toList) ∧
      pyOptStr ((modelOf modelArg).map windows_to_linux_path) = ("None".toList)) ∧
    (env.isfile s.input = false →
      (inputParams env s).vtk = ("None".toList) ∧ (inputParams env s).stl = ("None".toList)) ∧
    (env.isfile s.input = true →
      (inputParams env s).csv = ("None".toList) ∧ (inputParams env s).folder = ("None".toList)) ∧
    (env.isdir s.input = false →
      (inputParams env s).csv = ("None".toList) ∧ (inputParams env s).folder = ("None".toList)) ∧
    (env.isfile s.input = true → (env.splitext1 s.input == (".stl".toList)) = false →
      (inputParams env s).stl = ("None".toList)) := by
  refine ⟨?_, ?_, ?_, ?_, ?_, ?_, ?_, ?_⟩
  · rfl
  · rfl
  · rfl
  · intro h; subst h; exact ⟨rfl, rfl⟩
  · intro h; simp [inputParams, h]
  · intro h; simp [inputParams, h]
  · intro h; simp [inputParams, h]
  · intro h1 h2
    have p2 : ¬(env.splitext1 s.input = ['.', 's', 't', 'l']) := beq_eq_false_iff_ne.mp h2
    simp [inputParams, h1, p2]

/-- Witness for C6: a folder-mode style invocation with the latest model. -/
theorem C6_witness :
    buildCommandLinux ("None".toList) ("None".toList) ("/mod/list_file.csv".toList)
        ("/out/".toList) false ("latest".toList) false ("PredictedID".toList) 0
        ("predict".toList) ("/in".toList)
      = renderPlain
          [(("--vtk".toList), ("None".toList)), (("--stl".toList), ("None".toList)),
           (("--csv".toList), ("/mod/list_file.csv".toList)),
           (("--out".toList), ("/out/".toList)),
           (("--overwrite".toList), pyBoolStr false),
           (("--model".toList), pyOptStr (modelOf ("latest".toList))),
           (("--crown_segmentation".toList), pyBoolStr false),
           (("--array_name".toList), ("PredictedID".toList)),
           (("--fdi".toList), pyNatStr 0),
           (("--suffix".toList), ("predict".toList)),
           (("--vtk_folder".toList), ("/in".toList))] ∧
    pyOptStr (modelOf ("latest".toList)) = ("None".toList) ∧
    (inputParams defaultSegEnv defaultWState).vtk = ("None".toList) ∧
    (inputParams defaultSegEnv defaultWState).stl = ("None".toList) := by
  have h := C6_command_surface ("None".toList) ("None".toList) ("/mod/list_file.csv".toList)
    ("/out/".toList) false ("latest".toList) false ("PredictedID".toList) 0
    ("predict".toList) ("/in".toList)
    ("None".toList) ("None".toList) ("None".toList) ("None".toList) ("None".toList)
    ("None".toList) ("None".toList) ("None".toList) ("None".toList) ("None".toList)
    ("None".toList) defaultSegEnv defaultWState
  refine ⟨h.1, (h.2.2.2.1 rfl).1, ?_, ?_⟩
  · exact (h.2.2.2.2.1 rfl).1
  · exact (h.2.2.2.2.1 rfl).2

/-! ### C7: the progress poller -/

def pInit : PState :=
  { previous_time := 0
    start_time := 0
    elapsedShown := 0
    progressBar := 0
    applyEnabled := false
    resetEnabled := false
    cancelEnabled := true
    progressBarEnabled := true
    progressBarHidden := false
    progressLabelHidden := false
    doneLabelHidden := true }

/-- Counterexample to C7 as stated: with nbFiles = 1 and two observed
modifications of the log file before completion, the spec formula demands a
reported progress of 99, but two onProcessUpdate ticks (completion flag still
down, log modification times 5 then 6) leave the progress bar at its initial
0: the log-polling block is commented out in the source. -/
theorem C7_counterexample :
    ((onProcessUpdate 2 6 false false []
        ((onProcessUpdate 1 5 false false [] pInit).1)).1).progressBar = 0 ∧
    claimedProgress 2 1 = 99 ∧
    ¬((((onProcessUpdate 2 6 false false []
          ((onProcessUpdate 1 5 false false [] pInit).1)).1).progressBar : Rat)
        = claimedProgress 2 1) := by
  have h0 : ((onProcessUpdate 2 6 false false []
      ((onProcessUpdate 1 5 false false [] pInit).1)).1).progressBar = 0 := by
    simp only [onProcessUpdate]
    split_ifs <;> rfl
  have h99 : claimedProgress 2 1 = 99 := by
    norm_num [claimedProgress]
  refine ⟨h0, h99, ?_⟩
  rw [h0, h99]
  norm_num

/-- Claim C7 (amended): onProcessUpdate never writes the progress value at all
(the computation (n-1)/nbFiles*100 with its 99 cap survives only as commented
out code); in particular the reported progress never reaches 100 before the
completion flag is up, since it is never changed from its prior value.  Only
the elapsed-time label and the completion and error handling remain. -/
theorem C7_progress_never_written (now logMtime : Rat) (completed errors : Bool)
    (errorText : List Char) (st : PState) :
    ((onProcessUpdate now logMtime completed errors errorText st).1).progressBar
      = st.progressBar := by
  simp only [onProcessUpdate]
  split_ifs <;> rfl

/-! ### C8: the transient list_file.csv -/

def c8AbortEnv : SegEnv :=
  { defaultSegEnv with
      isdir := fun _ => true }

def c8LaunchEnv : SegEnv :=
  { defaultSegEnv with
      isdir := fun _ => true
      condaPath := ("/opt/conda".toList)
      condaTestEnv := true }

def c8FolderState : WState :=
  { defaultWState with
      model := ("latest".toList)
      inputChoice := InputChoice.FOLDER
      input := ("/in".toList) }

/-- Counterexample to C8 as stated: a folder-mode run on a host where the
conda path is not set up creates list_file.csv, aborts with an info dialog,
and leaves the file on disk: the deletion sits only on the launch path. -/
theorem C8_counterexample :
    c8AbortEnv.condaPath = ("None".toList) ∧
    (onApplyChangesButton c8AbortEnv c8FolderState).2.any isCreateCsvAct = true ∧
    csvExistsAfter c8AbortEnv (onApplyChangesButton c8AbortEnv c8FolderState).2 = true := by
  decide

/-- Claim C8 (amended): in folder-input mode (gates passed), list_file.csv is
always created at the os.path.join of the module folder and list_file.csv,
and after the handler returns the file is gone exactly when the run reached
the launch of dentalmodelseg; aborted runs (conda path unset, user refusing
environment creation, WSL or its libraries missing, conda broken in WSL)
leave it on disk. -/
theorem C8_csv_lifecycle (env : SegEnv) (s : WState)
    (hgate : (env.isdir s.outputFolder && (env.isfile s.model || s.model == "latest".toList))
      = true)
    (hfile : env.isfile s.input = false) (hdir : env.isdir s.input = true) :
    Act.createCsv (csvPath env) ∈ (onApplyChangesButton env s).2 ∧
    (csvExistsAfter env (onApplyChangesButton env s).2 = false ↔
      (onApplyChangesButton env s).2.any isLaunchAct = true) := by
  have hgate2 : ((s.inputChoice.isMRML && s.mrmlPresent) || env.isfile s.input
      || env.isdir s.input) = true := by
    simp [hdir]
  simp only [onApplyChangesButton, hgate, hgate2, Bool.not_true, Bool.false_eq_true, if_false]
  by_cases psys : env.system = ['W', 'i', 'n', 'd', 'o', 'w', 's']
  · cases hw : env.wslAvailable
    · simp [mainBranch, hfile, hdir, psys, hw, csvExistsAfter,
        isCreateCsvAct, isRemoveFileAct, isLaunchAct]
    · cases hlib : env.wslLibsOk
      · simp [mainBranch, hfile, hdir, psys, hw, hlib, csvExistsAfter,
          isCreateCsvAct, isRemoveFileAct, isLaunchAct]
      · cases hver : env.condaVersionHasError
        · cases htw : env.condaTestEnvWsl
          · cases hrw : env.userResponseWsl
            · simp [mainBranch, hfile, hdir, psys, hw, hlib, hver, htw, hrw, csvExistsAfter,
                isCreateCsvAct, isRemoveFileAct, isLaunchAct]
            · simp [mainBranch, hfile, hdir, psys, hw, hlib, hver, htw, hrw, csvExistsAfter,
                isCreateCsvAct, isRemoveFileAct, isLaunchAct]
          · simp [mainBranch, hfile, hdir, psys, hw, hlib, hver, htw, csvExistsAfter,
              isCreateCsvAct, isRemoveFileAct, isLaunchAct]
        · simp [mainBranch, hfile, hdir, psys, hw, hlib, hver, csvExistsAfter,
            isCreateCsvAct, isRemoveFileAct, isLaunchAct]
  · by_cases pcp : env.condaPath = ['N', 'o', 'n', 'e']
    · simp [mainBranch, hfile, hdir, psys, pcp, csvExistsAfter,
        isCreateCsvAct, isRemoveFileAct, isLaunchAct]
    · cases hte : env.condaTestEnv
      · cases hur : env.userResponse
        · simp [mainBranch, hfile, hdir, psys, pcp, hte, hur, csvExistsAfter,
            isCreateCsvAct, isRemoveFileAct, isLaunchAct]
        · simp [mainBranch, hfile, hdir, psys, pcp, hte, hur, csvExistsAfter,
            isCreateCsvAct, isRemoveFileAct, isLaunchAct]
      · simp [mainBranch, hfile, hdir, psys, pcp, hte, csvExistsAfter,
          isCreateCsvAct, isRemoveFileAct, isLaunchAct]

/-- Witness for C8 (amended): a Linux folder-mode run with conda set up and
the environment present deletes the csv it created. -/
theorem C8_witness :
    Act.createCsv (csvPath c8LaunchEnv)
      ∈ (onApplyChangesButton c8LaunchEnv c8FolderState).2 ∧
    (csvExistsAfter c8LaunchEnv (onApplyChangesButton c8LaunchEnv c8FolderState).2 = false ↔
      (onApplyChangesButton c8LaunchEnv c8FolderState).2.any isLaunchAct = true) :=
  C8_csv_lifecycle c8LaunchEnv c8FolderState (by decide) rfl rfl

/-! ### C9: the TeethSeg_ModelPath setting -/

def c9Env : SegEnv :=
  { defaultSegEnv with
      isdir := fun l => l == ("/out/".toList)
      isfile := fun l => l == ("/m/model.pth".toList) || l == ("/in/a.vtk".toList)
      splitext1 := fun _ => (".vtk".toList)
      condaPath := ("/opt/conda".toList)
      condaTestEnv := true }

def c9State : WState :=
  { defaultWState with
      input := ("/in/a.vtk".toList)
      outputFolder := ("/out/".toList)
      outputLineEdit := ("/out/".toList)
      model := ("/m/model.pth".toList)
      modelLineEdit := ("/m/model.pth".toList)
      outputFileLineEdit := ("predict".toList) }

/-- Counterexample to C9 as stated: a run that launches dentalmodelseg with
the model path /m/model.pth performs no QSettings write at all; nothing in
the module ever stores TeethSeg_ModelPath. -/
theorem C9_counterexample :
    c9State.model = ("/m/model.pth".toList) ∧
    (onApplyChangesButton c9Env c9State).2.any isLaunchAct = true ∧
    (onApplyChangesButton c9Env c9State).2.any isSetSettingAct = false := by
  decide

theorem prod_snd_ite (c : Prop) [Decidable c] {A B : Type} (a b : A × B) :
    (if c then a else b).2 = if c then a.2 else b.2 := by
  split_ifs <;> rfl

theorem prod_fst_ite (c : Prop) [Decidable c] {A B : Type} (a b : A × B) :
    (if c then a else b).1 = if c then a.1 else b.1 := by
  split_ifs <;> rfl

theorem any_ite_distrib (c : Prop) [Decidable c] (l1 l2 : List Act) (f : Act → Bool) :
    (if c then l1 else l2).any f = if c then l1.any f else l2.any f := by
  split_ifs <;> rfl

set_option maxHeartbeats 1000000 in
/-- Every trace of the apply-changes handler is free of QSettings writes. -/
theorem handler_writes_no_setting (env : SegEnv) (s : WState) :
    (onApplyChangesButton env s).2.any isSetSettingAct = false := by
  simp [onApplyChangesButton, mainBranch, prod_snd_ite, prod_fst_ite, any_ite_distrib,
    List.any_append, isSetSettingAct, ite_self]

/-- Claim C9 (amended): at widget setup a previously stored non-null
TeethSeg_ModelPath value is loaded into the model line edit (and so into the
model field), but the converse direction of the claim fails: no run ever
saves the model path, since the apply-changes handler performs no settings
write (the only settings write in the module is the TeethSegVisited flag of
onCBchecked). -/
theorem C9_setting_loaded_never_saved (stored : Option (List Char)) (v : List Char)
    (s : WState) (env : SegEnv) (s2 : WState) (h : stored = some v) :
    (setupModelLine stored s).modelLineEdit = v ∧
    (setupModelLine stored s).model = v ∧
    (onApplyChangesButton env s2).2.any isSetSettingAct = false := by
  subst h
  exact ⟨rfl, rfl, handler_writes_no_setting env s2⟩

/-- Witness for C9 (amended). -/
theorem C9_witness :
    (setupModelLine (some ("/m/model.pth".toList)) defaultWState).modelLineEdit
      = ("/m/model.pth".toList) ∧
    (setupModelLine (some ("/m/model.pth".toList)) defaultWState).model
      = ("/m/model.pth".toList) ∧
    (onApplyChangesButton defaultSegEnv defaultWState).2.any isSetSettingAct = false :=
  C9_setting_loaded_never_saved (some ("/m/model.pth".toList)) ("/m/model.pth".toList)
    defaultWState defaultSegEnv defaultWState rfl
